import Mathlib

/-!
Shallow embedding of the offloading frontend of programs/host/frontend.c:
the frame codec (mbedtls_serialize_read / mbedtls_serialize_send_result),
the argument stack, the file-handle table (alloc_file_context,
free_file_context, get_file_from_id), the dispatcher
(mbedtls_serialize_perform) and the per-message step of the frontend loop
(mbedtls_serialize_pull).

Modelling conventions:
* an item is its byte buffer, a list of byte values; the C size field is the
  list length;
* the serialization channel is a finite list of input bytes (reads that the C
  code would block on forever because the stream is exhausted come out as the
  distinguished outcome stuck); the write side is the list of RESULT payloads
  actually transmitted;
* C undefined behavior that the source can reach (dereferencing a NULL
  inputs[i] pointer, reading an integer past the end of an item's buffer,
  indexing the file table with a negative index, running strlen over a buffer
  with no NUL byte) is modelled as the distinguished outcome none / crash;
* memory-allocation results and the results of the collaborating OS calls
  (networking and file system modules, which are external to frontend.c) are
  supplied by an oracle environment Env;
* the header mbedtls/serialize.h is not part of the sources; the constants it
  defines (message type bytes, function opcodes, error codes, limits) are
  modelled from the spec, see the individual doc comments.
-/

namespace Frontend

/-- A serialized item: the byte buffer of one argument or result
(struct mbedtls_serialize_item_t, frontend.c); the C size field is the
length of the list. -/
abbrev Item := List Nat

/-- Frontend status machine (mbedtls_serialize_status_t, frontend.c):
DEAD = 0, OK = 1, OUT_OF_MEMORY = 2, EXITED = 3. -/
inductive SStatus where
  | dead
  | ok
  | outOfMemory
  | exited
deriving DecidableEq

/-- Size of the file handle table (frontend.c, MBEDTLS_SERIALIZE_MAX_FILES). -/
def MBEDTLS_SERIALIZE_MAX_FILES : Nat := 100

/-- Modelled from the spec: serialize.h is absent from the sources; the PUSH
message type byte. Only distinctness of the three type bytes matters. -/
def MBEDTLS_SERIALIZE_TYPE_PUSH : Nat := 0x50

/-- Modelled from the spec: serialize.h is absent; the EXECUTE message type
byte. -/
def MBEDTLS_SERIALIZE_TYPE_EXECUTE : Nat := 0x45

/-- Modelled from the spec: serialize.h is absent; the RESULT message type
byte. -/
def MBEDTLS_SERIALIZE_TYPE_RESULT : Nat := 0x52

/-- Modelled from the spec: serialize.h is absent; the implementation limit on
a RESULT payload length. The spec only requires it to be an implementation
limit not above the 24-bit header length field; the value is otherwise
immaterial to the development. -/
def MBEDTLS_SERIALIZE_MAX_STRING_LENGTH : Nat := 0xffff

/-- Modelled from the spec: serialize.h is absent; the BAD_INPUT status code,
an mbedtls-style negative error value. Only that it is nonzero and distinct
from the other codes and from the status enum values matters. -/
def MBEDTLS_ERR_SERIALIZE_BAD_INPUT : Int := -0x6f80

/-- Modelled from the spec: serialize.h is absent; the BAD_OUTPUT status
code. -/
def MBEDTLS_ERR_SERIALIZE_BAD_OUTPUT : Int := -0x6f00

/-- Modelled from the spec: serialize.h is absent; the ALLOC_FAILED status
code. -/
def MBEDTLS_ERR_SERIALIZE_ALLOC_FAILED : Int := -0x6e80

/-- Modelled from the spec: serialize.h is absent; the UNSUPPORTED_OUTPUT
status code. -/
def MBEDTLS_ERR_SERIALIZE_UNSUPPORTED_OUTPUT : Int := -0x6e00

/-- Modelled from the spec: serialize.h is absent; the SEND channel-fatal
status code. -/
def MBEDTLS_ERR_SERIALIZE_SEND : Int := -0x6d80

/-- Modelled from the spec: serialize.h is absent; the RECEIVE channel-fatal
status code. -/
def MBEDTLS_ERR_SERIALIZE_RECEIVE : Int := -0x6d00

/-- Modelled from the spec: serialize.h is absent; the infinite-timeout
sentinel for RECV. -/
def MBEDTLS_SERIALIZE_TIMEOUT_INFINITE : Nat := 0xffffffff

/-- Modelled from the spec: serialize.h is absent; blocking-mode selector for
SET_BLOCK. -/
def MBEDTLS_SERIALIZE_BLOCK_BLOCK : Nat := 1

/-- Modelled from the spec: serialize.h is absent; nonblocking-mode selector
for SET_BLOCK. -/
def MBEDTLS_SERIALIZE_BLOCK_NONBLOCK : Nat := 2

/-- Modelled from the spec: serialize.h is absent; the bind-vs-connect bit
mask inside the SOCKET proto_and_mode u16 (spec treats the exact layout as
externally specified). -/
def MBEDTLS_SERIALIZE_SOCKET_DIRECTION_MASK : Nat := 0x10

/-- Modelled from the spec: serialize.h is absent; the value of the direction
field selecting bind. -/
def MBEDTLS_SERIALIZE_SOCKET_BIND : Nat := 0x10

/-- Modelled from the spec: serialize.h is absent; FSEEK whence selector SET. -/
def MBEDTLS_SERIALIZE_FSEEK_SET : Int := 0

/-- Modelled from the spec: serialize.h is absent; FSEEK whence selector CUR. -/
def MBEDTLS_SERIALIZE_FSEEK_CUR : Int := 1

/-- Modelled from the spec: serialize.h is absent; FSEEK whence selector END. -/
def MBEDTLS_SERIALIZE_FSEEK_END : Int := 2

/-- Modelled from the spec: serialize.h is absent; the 24-bit function
opcodes. Per the spec (section 4.E and glossary) the declared arity of an
opcode is encoded in bits 4 to 7 of its value; the values below are chosen
distinct with the arity nibble of the catalogue; the remaining bits are
immaterial to the development. -/
def MBEDTLS_SERIALIZE_FUNCTION_EXIT : Nat := 0x000010

/-- Modelled from the spec: the ECHO opcode (arity 1). -/
def MBEDTLS_SERIALIZE_FUNCTION_ECHO : Nat := 0x000111

/-- Modelled from the spec: the USLEEP opcode (arity 1). -/
def MBEDTLS_SERIALIZE_FUNCTION_USLEEP : Nat := 0x000210

/-- Modelled from the spec: the SOCKET opcode (arity 3). -/
def MBEDTLS_SERIALIZE_FUNCTION_SOCKET : Nat := 0x000331

/-- Modelled from the spec: the ACCEPT opcode (arity 2). -/
def MBEDTLS_SERIALIZE_FUNCTION_ACCEPT : Nat := 0x000423

/-- Modelled from the spec: the SET_BLOCK opcode (arity 2). -/
def MBEDTLS_SERIALIZE_FUNCTION_SET_BLOCK : Nat := 0x000520

/-- Modelled from the spec: the RECV opcode (arity 3). -/
def MBEDTLS_SERIALIZE_FUNCTION_RECV : Nat := 0x000631

/-- Modelled from the spec: the SEND opcode (arity 2). -/
def MBEDTLS_SERIALIZE_FUNCTION_SEND : Nat := 0x000721

/-- Modelled from the spec: the SHUTDOWN opcode (arity 1). -/
def MBEDTLS_SERIALIZE_FUNCTION_SHUTDOWN : Nat := 0x000810

/-- Modelled from the spec: the FOPEN opcode (arity 2). -/
def MBEDTLS_SERIALIZE_FUNCTION_FOPEN : Nat := 0x000921

/-- Modelled from the spec: the FREAD opcode (arity 2). -/
def MBEDTLS_SERIALIZE_FUNCTION_FREAD : Nat := 0x000a21

/-- Modelled from the spec: the FGETS opcode (arity 2). -/
def MBEDTLS_SERIALIZE_FUNCTION_FGETS : Nat := 0x000b21

/-- Modelled from the spec: the FWRITE opcode (arity 2). -/
def MBEDTLS_SERIALIZE_FUNCTION_FWRITE : Nat := 0x000c21

/-- Modelled from the spec: the FCLOSE opcode (arity 1). -/
def MBEDTLS_SERIALIZE_FUNCTION_FCLOSE : Nat := 0x000d10

/-- Modelled from the spec: the FSEEK opcode (arity 3). -/
def MBEDTLS_SERIALIZE_FUNCTION_FSEEK : Nat := 0x000e30

/-- Modelled from the spec: the FTELL opcode (arity 1). -/
def MBEDTLS_SERIALIZE_FUNCTION_FTELL : Nat := 0x000f11

/-- Modelled from the spec: the FERROR opcode (arity 1). -/
def MBEDTLS_SERIALIZE_FUNCTION_FERROR : Nat := 0x001010

/-- Modelled from the spec: the DOPEN opcode (arity 1). -/
def MBEDTLS_SERIALIZE_FUNCTION_DOPEN : Nat := 0x001111

/-- Modelled from the spec: the DREAD opcode (arity 2). -/
def MBEDTLS_SERIALIZE_FUNCTION_DREAD : Nat := 0x001221

/-- Modelled from the spec: the DCLOSE opcode (arity 1). -/
def MBEDTLS_SERIALIZE_FUNCTION_DCLOSE : Nat := 0x001310

/-- Modelled from the spec: the STAT opcode (arity 1). -/
def MBEDTLS_SERIALIZE_FUNCTION_STAT : Nat := 0x001411

/-- The uint32_t image of a C int value (two's complement). -/
def u32ofInt (i : Int) : Nat := (i % (2 ^ 32 : Int)).toNat

/-- The int32_t value obtained by converting a uint32_t value (the pattern
int32_t id = item_uint32(...) in frontend.c). -/
def i32ofU32 (n : Nat) : Int :=
  if n < 2 ^ 31 then (n : Int) else (n : Int) - 2 ^ 32

/-- Big-endian 2-byte encoding (set_item_uint16 on a 2-byte output item). -/
def u16be (v : Nat) : Item := [v / 256 % 256, v % 256]

/-- Big-endian 4-byte encoding (set_item_uint32 on a 4-byte output item). -/
def u32be (v : Nat) : Item := [v / 2 ^ 24 % 256, v / 2 ^ 16 % 256, v / 256 % 256, v % 256]

/-- item_uint16 (frontend.c): reads two bytes, big-endian, from an item's
buffer. The C code reads the bytes unconditionally; on an item shorter than
two bytes this is a read past the end of the allocation, modelled as none. -/
def item_uint16 : Item → Option Nat
  | b0 :: b1 :: _ => some (b0 * 256 + b1)
  | _ => none

/-- item_uint32 (frontend.c): reads four bytes, big-endian, from an item's
buffer; a shorter item means an out-of-bounds read, modelled as none. -/
def item_uint32 : Item → Option Nat
  | b0 :: b1 :: b2 :: b3 :: _ => some (((b0 * 256 + b1) * 256 + b2) * 256 + b3)
  | _ => none

/-- One slot of the file handle table
(mbedtls_serialize_file_context_t, frontend.c); the void pointer stored in a
slot is modelled as an optional opaque token. -/
structure FileCtx where
  file : Option Nat
  inUse : Bool
deriving DecidableEq

/-- alloc_file_context (frontend.c): scan for the first slot not in use, mark
it in use (the stored file pointer is left as it was) and return its 1-based
id, or -1 when every slot is in use. The table passed in always has
MBEDTLS_SERIALIZE_MAX_FILES entries, matching the static array. -/
def alloc_file_context (files : List FileCtx) : Int × List FileCtx :=
  match files.findIdx? (fun fc => !fc.inUse) with
  | some i =>
    match files.get? i with
    | some fc => (Int.ofNat i + 1, files.set i { fc with inUse := true })
    | none => (-1, files)
  | none => (-1, files)

/-- free_file_context (frontend.c): the argument is decremented and compared
only against the upper bound (a signed comparison), so an id of 0 or below
reaches a negative array index: an out-of-bounds write, modelled as none.
In bounds, the slot's in-use flag is cleared and 0 is returned when a file
pointer was stored, -1 otherwise; ids above the table return -1 untouched. -/
def free_file_context (files : List FileCtx) (file_id : Int) : Option (Int × List FileCtx) :=
  let i : Int := file_id - 1
  if i < (MBEDTLS_SERIALIZE_MAX_FILES : Int) then
    if i < 0 then none
    else
      match files.get? i.toNat with
      | some fc =>
        some (if fc.file.isSome then 0 else -1,
              files.set i.toNat { fc with inUse := false, file := none })
      | none => none
  else some (-1, files)

/-- get_file_from_id (frontend.c): the argument is decremented and compared
only against the upper bound (a signed comparison), so an id of 0 or below
reaches files[-1]: an out-of-bounds read, modelled as none. In bounds, the
stored pointer is returned when the slot is in use, the null pointer
otherwise; ids above the table return the null pointer with no access. -/
def get_file_from_id (files : List FileCtx) (file_id : Int) : Option (Option Nat) :=
  let i : Int := file_id - 1
  if i < (MBEDTLS_SERIALIZE_MAX_FILES : Int) then
    if i < 0 then none
    else
      match files.get? i.toNat with
      | some fc => some (if fc.inUse then fc.file else none)
      | none => none
  else some none

/-- Store a file pointer into a slot (the assignment
files[file_id - 1].file = file in the FOPEN / DOPEN bodies; no bounds check
in the C, but the id always comes from alloc_file_context there). -/
def storeFile (files : List FileCtx) (file_id : Int) (f : Option Nat) : Option (List FileCtx) :=
  let i : Int := file_id - 1
  if i < 0 then none
  else
    match files.get? i.toNat with
    | some fc => some (files.set i.toNat { fc with file := f })
    | none => none

/-- Offloading context plus the globals the frontend mutates
(mbedtls_serialize_context_t together with the exitcode global and the files
table; the two descriptors are replaced by the explicit byte stream and frame
list of the step functions). -/
structure PState where
  stack : List Item
  status : SStatus
  exitcode : Nat
  files : List FileCtx
deriving DecidableEq

/-- Oracle environment: results of memory allocations and of the calls into
the collaborating networking and file system modules (which are outside
frontend.c). Buffers filled by a collaborator are given as the byte list the
call produced. -/
structure Env where
  allocOut : Nat → Bool
  pushAlloc : Bool
  sendOk : Nat → Bool
  bindRet : Int
  connectRet : Int
  socketFd : Nat
  acceptRet : Int
  acceptBindFd : Nat
  acceptClientFd : Nat
  acceptIp : List Nat
  setBlockRet : Int
  setNonblockRet : Int
  recvRet : Int
  recvTimeoutRet : Int
  recvData : List Nat
  sendRet : Int
  fopenFile : Option Nat
  freadRet : Int
  freadData : List Nat
  fgetsStr : Option (List Nat)
  fwriteRet : Int
  fseekRet : Int
  ftellRet : Int
  ferrorRet : Int
  opendirDir : Option Nat
  readdirRet : Int
  readdirName : List Nat
  statType : Option Nat

/-- Bytes written by a collaborator into a zero-initialized buffer of len
bytes (alloc_item zero-fills via calloc). -/
def osFill (data : List Nat) (len : Nat) : List Nat :=
  data.take len ++ List.replicate (len - (data.take len).length) 0

/-- Intermediate result of one switch case of mbedtls_serialize_perform:
the int ret value, the outputs allocated so far (contiguous from index 0),
and the updated status / exitcode / file table. -/
structure PB where
  ret : Int
  outputs : List Item
  status : SStatus
  exitcode : Nat
  files : List FileCtx
deriving DecidableEq

/-- The switch statement of mbedtls_serialize_perform (frontend.c): arity is
bits 4 to 7 of the opcode; that many items are pulled from the top of the
stack into inputs (fewer when the stack is shorter). Each case mirrors the C
flow: CHECK_ARITY / CHECK_LENGTH produce BAD_INPUT, a failed ALLOC_OUTPUT
produces ALLOC_FAILED with the outputs allocated so far, and accessing an
input slot the arity loop never filled dereferences a NULL pointer, modelled
as none (crash), as are out-of-bounds integer reads from short items, strlen
over a buffer with no NUL byte, and negative file-table indices. -/
def performBody (env : Env) (st : PState) (function : Nat) : Option PB :=
  let inputs := st.stack.take (function / 16 % 16)
  let arity := inputs.length
  let base : PB :=
    { ret := 0, outputs := [], status := st.status, exitcode := st.exitcode, files := st.files }
  if function = MBEDTLS_SERIALIZE_FUNCTION_EXIT then
    if arity < 1 then some { base with ret := MBEDTLS_ERR_SERIALIZE_BAD_INPUT }
    else do
      let a0 ← inputs.get? 0
      if a0.length < 4 then some { base with ret := MBEDTLS_ERR_SERIALIZE_BAD_INPUT }
      else do
        let code ← item_uint32 a0
        some { base with ret := 0, exitcode := code, status := SStatus.exited }
  else if function = MBEDTLS_SERIALIZE_FUNCTION_ECHO then
    if arity < 1 then some { base with ret := MBEDTLS_ERR_SERIALIZE_BAD_INPUT }
    else do
      let a0 ← inputs.get? 0
      if env.allocOut 0 = false then some { base with ret := MBEDTLS_ERR_SERIALIZE_ALLOC_FAILED }
      else some { base with ret := 0, outputs := [a0] }
  else if function = MBEDTLS_SERIALIZE_FUNCTION_USLEEP then
    if arity < 1 then some { base with ret := MBEDTLS_ERR_SERIALIZE_BAD_INPUT }
    else do
      let a0 ← inputs.get? 0
      if a0.length < 4 then some { base with ret := MBEDTLS_ERR_SERIALIZE_BAD_INPUT }
      else some { base with ret := 0 }
  else if function = MBEDTLS_SERIALIZE_FUNCTION_SOCKET then
    if arity < 3 then some { base with ret := MBEDTLS_ERR_SERIALIZE_BAD_INPUT }
    else do
      let a2 ← inputs.get? 2
      if a2.length < 2 then some { base with ret := MBEDTLS_ERR_SERIALIZE_BAD_INPUT }
      else do
        let a0 ← inputs.get? 0
        let a1 ← inputs.get? 1
        let hlast ← a0.get? (a0.length - 1)
        let plast ← a1.get? (a1.length - 1)
        if hlast = 0 ∧ plast = 0 then do
          let proto ← item_uint16 a2
          let is_bind :=
            Nat.land proto MBEDTLS_SERIALIZE_SOCKET_DIRECTION_MASK = MBEDTLS_SERIALIZE_SOCKET_BIND
          if env.allocOut 0 = false then
            some { base with ret := MBEDTLS_ERR_SERIALIZE_ALLOC_FAILED }
          else
            let r := if is_bind then env.bindRet else env.connectRet
            if r = 0 then some { base with ret := 0, outputs := [u16be env.socketFd] }
            else some { base with ret := r, outputs := [u16be 0] }
        else some { base with ret := MBEDTLS_ERR_SERIALIZE_BAD_INPUT }
  else if function = MBEDTLS_SERIALIZE_FUNCTION_ACCEPT then
    if arity < 2 then some { base with ret := MBEDTLS_ERR_SERIALIZE_BAD_INPUT }
    else do
      let a0 ← inputs.get? 0
      if a0.length < 2 then some { base with ret := MBEDTLS_ERR_SERIALIZE_BAD_INPUT }
      else do
        let a1 ← inputs.get? 1
        if a1.length < 4 then some { base with ret := MBEDTLS_ERR_SERIALIZE_BAD_INPUT }
        else do
          let bsize ← item_uint32 a1
          if env.allocOut 0 = false then
            some { base with ret := MBEDTLS_ERR_SERIALIZE_ALLOC_FAILED }
          else if env.allocOut 1 = false then
            some { base with ret := MBEDTLS_ERR_SERIALIZE_ALLOC_FAILED, outputs := [u16be 0] }
          else if env.allocOut 2 = false then
            some { base with
                   ret := MBEDTLS_ERR_SERIALIZE_ALLOC_FAILED
                   outputs := [u16be 0, u16be 0] }
          else if env.acceptRet = 0 then
            some { base with
                   ret := 0
                   outputs := [u16be env.acceptBindFd, u16be env.acceptClientFd,
                               (osFill env.acceptIp bsize).take (min env.acceptIp.length bsize)] }
          else
            some { base with
                   ret := env.acceptRet
                   outputs := [u16be 0, u16be 0, List.replicate bsize 0] }
  else if function = MBEDTLS_SERIALIZE_FUNCTION_SET_BLOCK then
    if arity < 2 then some { base with ret := MBEDTLS_ERR_SERIALIZE_BAD_INPUT }
    else do
      let a0 ← inputs.get? 0
      if a0.length < 2 then some { base with ret := MBEDTLS_ERR_SERIALIZE_BAD_INPUT }
      else do
        let a1 ← inputs.get? 1
        if a1.length < 2 then some { base with ret := MBEDTLS_ERR_SERIALIZE_BAD_INPUT }
        else do
          let mode ← item_uint16 a1
          if mode = MBEDTLS_SERIALIZE_BLOCK_BLOCK then
            some { base with ret := env.setBlockRet }
          else if mode = MBEDTLS_SERIALIZE_BLOCK_NONBLOCK then
            some { base with ret := env.setNonblockRet }
          else some { base with ret := MBEDTLS_ERR_SERIALIZE_BAD_INPUT }
  else if function = MBEDTLS_SERIALIZE_FUNCTION_RECV then
    if arity < 3 then some { base with ret := MBEDTLS_ERR_SERIALIZE_BAD_INPUT }
    else do
      let a0 ← inputs.get? 0
      if a0.length < 2 then some { base with ret := MBEDTLS_ERR_SERIALIZE_BAD_INPUT }
      else do
        let a1 ← inputs.get? 1
        if a1.length < 4 then some { base with ret := MBEDTLS_ERR_SERIALIZE_BAD_INPUT }
        else do
          let a2 ← inputs.get? 2
          if a2.length < 4 then some { base with ret := MBEDTLS_ERR_SERIALIZE_BAD_INPUT }
          else do
            let len ← item_uint32 a1
            let timeout ← item_uint32 a2
            if env.allocOut 0 = false then
              some { base with ret := MBEDTLS_ERR_SERIALIZE_ALLOC_FAILED }
            else
              let r := if timeout = MBEDTLS_SERIALIZE_TIMEOUT_INFINITE then env.recvRet
                       else env.recvTimeoutRet
              if 0 ≤ r then
                some { base with ret := 0, outputs := [(osFill env.recvData len).take r.toNat] }
              else
                some { base with ret := r, outputs := [List.replicate len 0] }
  else if function = MBEDTLS_SERIALIZE_FUNCTION_SEND then
    if arity < 2 then some { base with ret := MBEDTLS_ERR_SERIALIZE_BAD_INPUT }
    else do
      let a0 ← inputs.get? 0
      if a0.length < 2 then some { base with ret := MBEDTLS_ERR_SERIALIZE_BAD_INPUT }
      else do
        let _a1 ← inputs.get? 1
        if env.allocOut 0 = false then
          some { base with ret := MBEDTLS_ERR_SERIALIZE_ALLOC_FAILED }
        else if 0 ≤ env.sendRet then
          some { base with ret := 0, outputs := [u32be env.sendRet.toNat] }
        else some { base with ret := env.sendRet, outputs := [u32be 0] }
  else if function = MBEDTLS_SERIALIZE_FUNCTION_SHUTDOWN then
    if arity < 1 then some { base with ret := MBEDTLS_ERR_SERIALIZE_BAD_INPUT }
    else do
      let a0 ← inputs.get? 0
      if a0.length < 2 then some { base with ret := MBEDTLS_ERR_SERIALIZE_BAD_INPUT }
      else some { base with ret := 0 }
  else if function = MBEDTLS_SERIALIZE_FUNCTION_FOPEN then
    if env.allocOut 0 = false then some { base with ret := MBEDTLS_ERR_SERIALIZE_ALLOC_FAILED }
    else do
      let a0 ← inputs.get? 0
      let a1 ← inputs.get? 1
      if (a0.contains 0 && a1.contains 0) = false then none
      else
        match alloc_file_context st.files with
        | (file_id, files1) =>
          if file_id = -1 then
            some { base with
                   ret := MBEDTLS_ERR_SERIALIZE_BAD_OUTPUT
                   outputs := [u32be 0]
                   files := files1 }
          else
            match env.fopenFile with
            | some f => do
              let files2 ← storeFile files1 file_id (some f)
              some { base with ret := 0, outputs := [u32be file_id.toNat], files := files2 }
            | none => do
              let fr ← free_file_context files1 file_id
              some { base with
                     ret := MBEDTLS_ERR_SERIALIZE_BAD_OUTPUT
                     outputs := [u32be 0]
                     files := fr.2 }
  else if function = MBEDTLS_SERIALIZE_FUNCTION_FREAD then
    do
      let a0 ← inputs.get? 0
      let a1 ← inputs.get? 1
      let size ← item_uint32 a0
      let fid ← item_uint32 a1
      let fres ← get_file_from_id st.files (i32ofU32 fid)
      match fres with
      | some _ =>
        if env.allocOut 0 = false then
          some { base with ret := MBEDTLS_ERR_SERIALIZE_ALLOC_FAILED }
        else if 0 ≤ env.freadRet then
          some { base with
                 ret := 0
                 outputs := [(osFill env.freadData size).take env.freadRet.toNat] }
        else some { base with ret := env.freadRet, outputs := [List.replicate size 0] }
      | none => some { base with ret := MBEDTLS_ERR_SERIALIZE_BAD_OUTPUT }
  else if function = MBEDTLS_SERIALIZE_FUNCTION_FGETS then
    do
      let a0 ← inputs.get? 0
      let a1 ← inputs.get? 1
      let size ← item_uint32 a0
      let fid ← item_uint32 a1
      let fres ← get_file_from_id st.files (i32ofU32 fid)
      match fres with
      | some _ =>
        if env.allocOut 0 = false then
          some { base with ret := MBEDTLS_ERR_SERIALIZE_ALLOC_FAILED }
        else
          match env.fgetsStr with
          | some s =>
            let buf := osFill s size
            let sl := (buf.takeWhile (fun b => b ≠ 0)).length
            if sl = buf.length then none
            else some { base with ret := 0, outputs := [buf.take (sl + 1)] }
          | none =>
            some { base with
                   ret := MBEDTLS_ERR_SERIALIZE_BAD_OUTPUT
                   outputs := [List.replicate size 0] }
      | none => some { base with ret := MBEDTLS_ERR_SERIALIZE_BAD_OUTPUT }
  else if function = MBEDTLS_SERIALIZE_FUNCTION_FWRITE then
    if env.allocOut 0 = false then some { base with ret := MBEDTLS_ERR_SERIALIZE_ALLOC_FAILED }
    else do
      let a1 ← inputs.get? 1
      let fid ← item_uint32 a1
      let fres ← get_file_from_id st.files (i32ofU32 fid)
      match fres with
      | some _ => do
        let _a0 ← inputs.get? 0
        if 0 ≤ env.fwriteRet then
          some { base with ret := 0, outputs := [u32be env.fwriteRet.toNat] }
        else some { base with ret := env.fwriteRet, outputs := [u32be 0] }
      | none => some { base with ret := MBEDTLS_ERR_SERIALIZE_BAD_OUTPUT, outputs := [u32be 0] }
  else if function = MBEDTLS_SERIALIZE_FUNCTION_FCLOSE then
    do
      let a0 ← inputs.get? 0
      let fid ← item_uint32 a0
      let fres ← get_file_from_id st.files (i32ofU32 fid)
      match fres with
      | some _ => do
        let fr ← free_file_context st.files (i32ofU32 fid)
        some { base with ret := fr.1, files := fr.2 }
      | none => some { base with ret := MBEDTLS_ERR_SERIALIZE_BAD_OUTPUT }
  else if function = MBEDTLS_SERIALIZE_FUNCTION_FSEEK then
    do
      let a0 ← inputs.get? 0
      let a1 ← inputs.get? 1
      let a2 ← inputs.get? 2
      let _offset ← item_uint32 a0
      let whence ← item_uint32 a1
      let fid ← item_uint32 a2
      let fres ← get_file_from_id st.files (i32ofU32 fid)
      match fres with
      | some _ =>
        let w := i32ofU32 whence
        if w = MBEDTLS_SERIALIZE_FSEEK_SET ∨ w = MBEDTLS_SERIALIZE_FSEEK_CUR ∨
            w = MBEDTLS_SERIALIZE_FSEEK_END then
          some { base with ret := env.fseekRet }
        else some { base with ret := MBEDTLS_ERR_SERIALIZE_BAD_OUTPUT }
      | none => some { base with ret := MBEDTLS_ERR_SERIALIZE_BAD_OUTPUT }
  else if function = MBEDTLS_SERIALIZE_FUNCTION_FTELL then
    if env.allocOut 0 = false then some { base with ret := MBEDTLS_ERR_SERIALIZE_ALLOC_FAILED }
    else do
      let a0 ← inputs.get? 0
      let fid ← item_uint32 a0
      let fres ← get_file_from_id st.files (i32ofU32 fid)
      match fres with
      | some _ =>
        if 0 ≤ env.ftellRet then
          some { base with ret := 0, outputs := [u32be env.ftellRet.toNat] }
        else some { base with ret := env.ftellRet, outputs := [u32be 0] }
      | none => some { base with ret := MBEDTLS_ERR_SERIALIZE_BAD_OUTPUT, outputs := [u32be 0] }
  else if function = MBEDTLS_SERIALIZE_FUNCTION_FERROR then
    do
      let a0 ← inputs.get? 0
      let fid ← item_uint32 a0
      let fres ← get_file_from_id st.files (i32ofU32 fid)
      match fres with
      | some _ => some { base with ret := env.ferrorRet }
      | none => some { base with ret := MBEDTLS_ERR_SERIALIZE_BAD_OUTPUT }
  else if function = MBEDTLS_SERIALIZE_FUNCTION_DOPEN then
    if env.allocOut 0 = false then some { base with ret := MBEDTLS_ERR_SERIALIZE_ALLOC_FAILED }
    else do
      let a0 ← inputs.get? 0
      if a0.contains 0 = false then none
      else
        match alloc_file_context st.files with
        | (file_id, files1) =>
          if file_id = -1 then
            some { base with
                   ret := MBEDTLS_ERR_SERIALIZE_BAD_OUTPUT
                   outputs := [u32be 0]
                   files := files1 }
          else
            match env.opendirDir with
            | some d => do
              let files2 ← storeFile files1 file_id (some d)
              some { base with ret := 0, outputs := [u32be file_id.toNat], files := files2 }
            | none => do
              let fr ← free_file_context files1 file_id
              some { base with
                     ret := MBEDTLS_ERR_SERIALIZE_BAD_OUTPUT
                     outputs := [u32be 0]
                     files := fr.2 }
  else if function = MBEDTLS_SERIALIZE_FUNCTION_DREAD then
    do
      let a0 ← inputs.get? 0
      let a1 ← inputs.get? 1
      let size ← item_uint32 a0
      let fid ← item_uint32 a1
      if env.allocOut 0 = false then
        some { base with ret := MBEDTLS_ERR_SERIALIZE_ALLOC_FAILED }
      else do
        let fres ← get_file_from_id st.files (i32ofU32 fid)
        match fres with
        | some _ =>
          if env.readdirRet = 0 then
            let buf := osFill env.readdirName size
            let sl := (buf.takeWhile (fun b => b ≠ 0)).length
            if sl = buf.length then none
            else some { base with ret := 0, outputs := [buf.take (sl + 1)] }
          else
            some { base with
                   ret := MBEDTLS_ERR_SERIALIZE_BAD_OUTPUT
                   outputs := [List.replicate size 0] }
        | none =>
          some { base with
                 ret := MBEDTLS_ERR_SERIALIZE_BAD_OUTPUT
                 outputs := [List.replicate size 0] }
  else if function = MBEDTLS_SERIALIZE_FUNCTION_DCLOSE then
    do
      let a0 ← inputs.get? 0
      let fid ← item_uint32 a0
      let fres ← get_file_from_id st.files (i32ofU32 fid)
      match fres with
      | some _ => do
        let fr ← free_file_context st.files (i32ofU32 fid)
        some { base with ret := fr.1, files := fr.2 }
      | none => some { base with ret := MBEDTLS_ERR_SERIALIZE_BAD_OUTPUT }
  else if function = MBEDTLS_SERIALIZE_FUNCTION_STAT then
    if env.allocOut 0 = false then some { base with ret := MBEDTLS_ERR_SERIALIZE_ALLOC_FAILED }
    else do
      let a0 ← inputs.get? 0
      if a0.contains 0 = false then none
      else
        match env.statType with
        | some t => some { base with ret := 0, outputs := [u16be t] }
        | none => some { base with ret := MBEDTLS_ERR_SERIALIZE_BAD_OUTPUT, outputs := [u16be 0] }
  else some { base with ret := MBEDTLS_ERR_SERIALIZE_BAD_INPUT }

/-- mbedtls_serialize_perform (frontend.c): run the switch, then the common
epilogue: on a nonzero ret every allocated output is freed (only the status
will be sent), the argument stack is discarded unconditionally, and ret is
returned as a uint32_t. A crash inside the switch (none) propagates. -/
def mbedtls_serialize_perform (env : Env) (st : PState) (function : Nat) :
    Option (Nat × List Item × PState) :=
  (performBody env st function).map fun pb =>
    (u32ofInt pb.ret,
     if pb.ret = 0 then pb.outputs else [],
     { stack := [], status := pb.status, exitcode := pb.exitcode, files := pb.files })

/-- The synchronization loop at the head of mbedtls_serialize_read
(frontend.c): consume input bytes one by one until two consecutive bytes
0x7b (the character left brace) have been seen; any other byte resets the
counter. A stream that runs out before the marker means the C code blocks
forever in read, modelled as none. -/
def readSync : List Nat → Nat → Option (List Nat)
  | [], _ => none
  | b :: rest, tc =>
    if b = 0x7b then
      if 2 ≤ tc + 1 then some rest else readSync rest (tc + 1)
    else readSync rest 0

/-- The exact-length loop at the tail of mbedtls_serialize_read: read bytes
until length bytes have been obtained. A stream holding fewer bytes means
the C code blocks (or loops on end-of-stream) forever, modelled as none. -/
def readExact (s : List Nat) (n : Nat) : Option (List Nat × List Nat) :=
  if n ≤ s.length then some (s.take n, s.drop n) else none

/-- mbedtls_serialize_read (frontend.c): every call first runs the
synchronization loop, then reads exactly the requested number of bytes.
Returns the bytes read and the rest of the stream. -/
def mbedtls_serialize_read (s : List Nat) (n : Nat) : Option (List Nat × List Nat) :=
  match readSync s 0 with
  | none => none
  | some s1 => readExact s1 n

/-- Chunked discarding with an explicit iteration bound: every chunk removes
at least one byte from the remaining count, so a bound equal to the initial
count (as drain passes) makes the exhausted-bound branch unreachable. -/
def drainAux : Nat → List Nat → Nat → Option (List Nat)
  | _, s, 0 => some s
  | 0, _, _ + 1 => none
  | fuel + 1, s, m + 1 =>
    let n := if 4 < m + 1 then 4 else m + 1
    match mbedtls_serialize_read s n with
    | none => none
    | some (_, s2) => drainAux fuel s2 (m + 1 - n)

/-- The discard loop of the PUSH out-of-memory path in mbedtls_serialize_pull:
while payload bytes remain, read them in chunks of at most four bytes (each
chunk through mbedtls_serialize_read, hence each preceded by its own
synchronization scan) and throw them away. -/
def drain (s : List Nat) (length : Nat) : Option (List Nat) :=
  drainAux length s length

/-- The result-sending loop of the EXECUTE branch of mbedtls_serialize_pull,
built on mbedtls_serialize_send_result (frontend.c): each item longer than
MBEDTLS_SERIALIZE_MAX_STRING_LENGTH is refused with UNSUPPORTED_OUTPUT
before any of its bytes are written; otherwise the n-th write succeeds when
the oracle says so and fails with SEND otherwise. On any failure the loop
stops and the channel is marked dead. Returns the payloads actually
transmitted, the final ret value and the dead flag. -/
def sendLoop (env : Env) : Nat → List Item → List (List Nat) × Int × Bool
  | _, [] => ([], 0, false)
  | k, it :: rest =>
    if MBEDTLS_SERIALIZE_MAX_STRING_LENGTH < it.length then
      ([], MBEDTLS_ERR_SERIALIZE_UNSUPPORTED_OUTPUT, true)
    else if env.sendOk k then
      match sendLoop env (k + 1) rest with
      | (fs, r, d) => (it :: fs, r, d)
    else ([], MBEDTLS_ERR_SERIALIZE_SEND, true)

/-- Outcome of one mbedtls_serialize_pull step: done carries the C return
value, the post-state, the unread rest of the input stream and the RESULT
payloads transmitted; stuck marks a read the C code would never return from
(exhausted stream); crash marks undefined behavior inside the dispatcher. -/
inductive PullOut where
  | done (ret : Int) (st : PState) (rest : List Nat) (frames : List (List Nat))
  | stuck
  | crash
deriving DecidableEq

/-- mbedtls_serialize_pull (frontend.c): read one four-byte header and
process the message. A PUSH allocates an item of the payload length; on
allocation failure the status becomes OUT_OF_MEMORY and the payload is
drained and discarded; otherwise the payload is read and pushed. An EXECUTE
in the OUT_OF_MEMORY state skips the dispatcher and only sends the
ALLOC_FAILED status; otherwise the dispatcher runs, an early return without
any reply happens if its uint32 return value equals the EXITED enum value 3,
and the status item followed by the outputs is sent, marking the channel
dead if a send fails. Any other type byte kills the channel. -/
def mbedtls_serialize_pull (env : Env) (st : PState) (stream : List Nat) : PullOut :=
  if st.status = SStatus.dead then
    PullOut.done MBEDTLS_ERR_SERIALIZE_RECEIVE st stream []
  else
    match mbedtls_serialize_read stream 4 with
    | none => PullOut.stuck
    | some ([h0, h1, h2, h3], s1) =>
      if h0 = MBEDTLS_SERIALIZE_TYPE_PUSH then
        let length := h1 * 65536 + h2 * 256 + h3
        if env.pushAlloc then
          match mbedtls_serialize_read s1 length with
          | none => PullOut.stuck
          | some (payload, s2) =>
            PullOut.done 0 { st with stack := payload :: st.stack } s2 []
        else
          match drain s1 length with
          | none => PullOut.stuck
          | some s2 =>
            PullOut.done MBEDTLS_ERR_SERIALIZE_ALLOC_FAILED
              { st with status := SStatus.outOfMemory } s2 []
      else if h0 = MBEDTLS_SERIALIZE_TYPE_EXECUTE then
        let function := h1 * 65536 + h2 * 256 + h3
        if st.status = SStatus.outOfMemory then
          let statusU := u32ofInt MBEDTLS_ERR_SERIALIZE_ALLOC_FAILED
          match sendLoop env 0 [u32be statusU] with
          | (frames, r, dead) =>
            PullOut.done r { st with status := if dead then SStatus.dead else st.status } s1 frames
        else
          match mbedtls_serialize_perform env st function with
          | none => PullOut.crash
          | some (statusU, outs, st') =>
            if statusU = 3 then PullOut.done (Int.ofNat statusU) st' s1 []
            else
              match sendLoop env 0 (u32be statusU :: outs) with
              | (frames, r, dead) =>
                PullOut.done r { st' with status := if dead then SStatus.dead else st'.status }
                  s1 frames
      else
        PullOut.done MBEDTLS_ERR_SERIALIZE_BAD_INPUT { st with status := SStatus.dead } s1 []
    | some (_, _) => PullOut.crash

/-- The exact-length read loop of mbedtls_serialize_read in isolation
(the do-while over read, frontend.c), with the raw return value of each
read call supplied by an oracle indexed by call number: a negative return
ends the loop with the RECEIVE error (the caller then marks the channel
dead), any other return is subtracted from the remaining count and the loop
continues while that count is positive. Fuel bounds the number of
iterations inspected; none means the loop is still running after that many
iterations. -/
def readLoopModel (readRet : Nat → Int) : Nat → Nat → Nat → Option (Except Unit Unit)
  | _, _, 0 => none
  | k, remaining, fuel + 1 =>
    if readRet k < 0 then some (Except.error ())
    else
      let rem := remaining - (readRet k).toNat
      if 0 < rem then readLoopModel readRet (k + 1) rem fuel
      else some (Except.ok ())

/-- A file table with every slot free (the initial static files array). -/
def files0 : List FileCtx :=
  List.replicate MBEDTLS_SERIALIZE_MAX_FILES { file := none, inUse := false }

/-- Initial channel state: empty stack, status OK. -/
def st0 : PState := { stack := [], status := SStatus.ok, exitcode := 0, files := files0 }

/-- Sample oracle: every allocation and every write succeeds; collaborator
calls succeed with unremarkable values. -/
def envA : Env :=
  { allocOut := fun _ => true
    pushAlloc := true
    sendOk := fun _ => true
    bindRet := 0
    connectRet := 0
    socketFd := 5
    acceptRet := 0
    acceptBindFd := 5
    acceptClientFd := 6
    acceptIp := [127, 0, 0, 1]
    setBlockRet := 0
    setNonblockRet := 0
    recvRet := 0
    recvTimeoutRet := 0
    recvData := []
    sendRet := 0
    fopenFile := some 7
    freadRet := 0
    freadData := []
    fgetsStr := some [104, 105]
    fwriteRet := 0
    fseekRet := 0
    ftellRet := 0
    ferrorRet := 0
    opendirDir := some 8
    readdirRet := 0
    readdirName := [102]
    statType := some 1 }

/-- Sample oracle in which the allocation of a pushed item fails. -/
def envNoPush : Env := { envA with pushAlloc := false }

theorem readSync_marker (s : List Nat) : readSync (0x7b :: 0x7b :: s) 0 = some s := by
  simp [readSync]

theorem read_header (a b c d : Nat) (rest : List Nat) :
    mbedtls_serialize_read (0x7b :: 0x7b :: a :: b :: c :: d :: rest) 4 =
      some ([a, b, c, d], rest) := by
  simp [mbedtls_serialize_read, readSync_marker, readExact]

theorem read_payload (p rest : List Nat) :
    mbedtls_serialize_read (0x7b :: 0x7b :: (p ++ rest)) p.length = some (p, rest) := by
  simp [mbedtls_serialize_read, readSync_marker, readExact, List.take_left, List.drop_left]

theorem sendLoop_all_ok (env : Env) (hs : ∀ n, env.sendOk n = true) :
    ∀ (k : Nat) (items : List Item),
      (∀ it ∈ items, it.length ≤ MBEDTLS_SERIALIZE_MAX_STRING_LENGTH) →
      sendLoop env k items = (items, 0, false) := by
  intro k items
  induction items generalizing k with
  | nil => intro _; rfl
  | cons it rest ih =>
    intro hsz
    have h1 : ¬ MBEDTLS_SERIALIZE_MAX_STRING_LENGTH < it.length := by
      exact not_lt.mpr (hsz it (List.mem_cons_self it rest))
    have h2 : ∀ x ∈ rest, x.length ≤ MBEDTLS_SERIALIZE_MAX_STRING_LENGTH := by
      intro x hx; exact hsz x (List.mem_cons_of_mem it hx)
    simp [sendLoop, h1, hs k, ih (k + 1) h2]

theorem sendLoop_second_oversize (env : Env) (a b : Item)
    (ha : a.length ≤ MBEDTLS_SERIALIZE_MAX_STRING_LENGTH) (hok : env.sendOk 0 = true)
    (hb : MBEDTLS_SERIALIZE_MAX_STRING_LENGTH < b.length) :
    sendLoop env 0 [a, b] = ([a], MBEDTLS_ERR_SERIALIZE_UNSUPPORTED_OUTPUT, true) := by
  simp [sendLoop, Nat.not_lt.mpr ha, hok, hb]

theorem pull_execute_step (env : Env) (st : PState) (b1 b2 b3 : Nat) (rest : List Nat)
    (stU : Nat) (outs : List Item) (st' : PState)
    (hok : st.status = SStatus.ok)
    (hperf : mbedtls_serialize_perform env st (b1 * 65536 + b2 * 256 + b3) =
      some (stU, outs, st'))
    (hne : ¬ stU = 3) :
    mbedtls_serialize_pull env st
        (0x7b :: 0x7b :: MBEDTLS_SERIALIZE_TYPE_EXECUTE :: b1 :: b2 :: b3 :: rest) =
      (match sendLoop env 0 (u32be stU :: outs) with
       | (frames, r, dead) =>
         PullOut.done r { st' with status := if dead then SStatus.dead else st'.status }
           rest frames) := by
  have hnd : ¬ st.status = SStatus.dead := by rw [hok]; intro hc; cases hc
  have hnm : ¬ st.status = SStatus.outOfMemory := by rw [hok]; intro hc; cases hc
  simp [mbedtls_serialize_pull, hnd, read_header, hnm, hperf, hne,
    MBEDTLS_SERIALIZE_TYPE_EXECUTE, MBEDTLS_SERIALIZE_TYPE_PUSH]

theorem perform_echo (b : Item) :
    mbedtls_serialize_perform envA { st0 with stack := [b] } (0 * 65536 + 1 * 256 + 0x11) =
      some (0, [b], st0) := by
  simp [mbedtls_serialize_perform, performBody, MBEDTLS_SERIALIZE_FUNCTION_EXIT,
    MBEDTLS_SERIALIZE_FUNCTION_ECHO, envA, u32ofInt, st0]

/-- C1: processing an EXECUTE while the channel status is OUT_OF_MEMORY does
reply with the single status-only ALLOC_FAILED RESULT, but the post-state
status is still OUT_OF_MEMORY, not OK: no statement in the EXECUTE path of
mbedtls_serialize_pull resets the status, contradicting the claim (and the
function's own doc comment). -/
theorem C1_oom_execute_replies_alloc_failed_but_stays_oom :
    mbedtls_serialize_pull envA { st0 with status := SStatus.outOfMemory }
        [0x7b, 0x7b, MBEDTLS_SERIALIZE_TYPE_EXECUTE, 0, 1, 0x11] =
      PullOut.done 0 { st0 with status := SStatus.outOfMemory } []
        [u32be (u32ofInt MBEDTLS_ERR_SERIALIZE_ALLOC_FAILED)] ∧
    SStatus.outOfMemory ≠ SStatus.ok := ⟨by decide, by decide⟩

/-- C2: executing EXIT with a well-formed 4-byte argument records the exit
code and sets the status to EXITED, but one status-only RESULT is still
transmitted: the no-reply guard compares the dispatcher's uint32 return
value (0 on a successful EXIT) against the status enum value EXITED (3), so
it never fires. -/
theorem C2_exit_records_code_sets_exited_but_sends_reply :
    mbedtls_serialize_pull envA { st0 with stack := [[0, 0, 0, 42]] }
        [0x7b, 0x7b, MBEDTLS_SERIALIZE_TYPE_EXECUTE, 0, 0, 0x10] =
      PullOut.done 0 { st0 with status := SStatus.exited, exitcode := 42 } [] [u32be 0] ∧
    [u32be 0] ≠ ([] : List (List Nat)) := ⟨by decide, by decide⟩

/-- C3: dispatching FOPEN (a recognized opcode whose arity nibble is 2) with
an empty argument stack does not return BAD_INPUT: the file and directory
cases of the switch have no CHECK_ARITY guard, so the body runs and
dereferences the NULL inputs pointers (modelled as the crash outcome none);
by contrast ECHO, which is guarded, does return BAD_INPUT on an empty
stack. -/
theorem C3_fopen_arity_underflow_is_crash_not_bad_input :
    mbedtls_serialize_perform envA st0 MBEDTLS_SERIALIZE_FUNCTION_FOPEN = none ∧
    (mbedtls_serialize_perform envA st0 MBEDTLS_SERIALIZE_FUNCTION_ECHO).map
        (fun r => r.1) = some (u32ofInt MBEDTLS_ERR_SERIALIZE_BAD_INPUT) :=
  ⟨by decide, by decide⟩

/-- C4 (counterexample): a reachable run in which an EXECUTE is processed in
the OUT_OF_MEMORY state and leaves the argument stack nonempty: a PUSH that
succeeds, then a PUSH whose allocation fails, then an EXECUTE, after which
the stack still holds the first item. -/
theorem C4_oom_execute_leaves_stack_nonempty :
    mbedtls_serialize_pull envA st0
        [0x7b, 0x7b, MBEDTLS_SERIALIZE_TYPE_PUSH, 0, 0, 1, 0x7b, 0x7b, 65] =
      PullOut.done 0 { st0 with stack := [[65]] } [] [] ∧
    mbedtls_serialize_pull envNoPush { st0 with stack := [[65]] }
        [0x7b, 0x7b, MBEDTLS_SERIALIZE_TYPE_PUSH, 0, 0, 1, 0x7b, 0x7b, 66] =
      PullOut.done MBEDTLS_ERR_SERIALIZE_ALLOC_FAILED
        { st0 with stack := [[65]], status := SStatus.outOfMemory } [] [] ∧
    mbedtls_serialize_pull envA { st0 with stack := [[65]], status := SStatus.outOfMemory }
        [0x7b, 0x7b, MBEDTLS_SERIALIZE_TYPE_EXECUTE, 0, 1, 0x11] =
      PullOut.done 0 { st0 with stack := [[65]], status := SStatus.outOfMemory } []
        [u32be (u32ofInt MBEDTLS_ERR_SERIALIZE_ALLOC_FAILED)] ∧
    ([[65]] : List Item) ≠ [] := ⟨by decide, by decide, by decide, by decide⟩

/-- C4 (amended): after every EXECUTE that actually reaches the dispatcher
and completes without undefined behavior, the argument stack is empty
(mbedtls_serialize_perform discards it unconditionally); an EXECUTE handled
in the OUT_OF_MEMORY state skips the dispatcher and does not touch the
stack. -/
theorem C4_dispatched_execute_empties_stack (env : Env) (st : PState) (f : Nat)
    (stU : Nat) (outs : List Item) (st' : PState)
    (h : mbedtls_serialize_perform env st f = some (stU, outs, st')) :
    st'.stack = [] := by
  unfold mbedtls_serialize_perform at h
  cases hb : performBody env st f with
  | none => rw [hb] at h; simp at h
  | some pb =>
    rw [hb] at h
    simp only [Option.map_some', Option.some.injEq, Prod.mk.injEq] at h
    obtain ⟨-, -, h3⟩ := h
    rw [← h3]

/-- C4 (witness): the amended theorem applied to a concrete dispatched
ECHO. -/
theorem C4_dispatched_execute_empties_stack_witness : st0.stack = [] :=
  C4_dispatched_execute_empties_stack envA { st0 with stack := [[65]] }
    MBEDTLS_SERIALIZE_FUNCTION_ECHO 0 [[65]] st0 (by decide)

/-- A file table with slot 1 in use and holding a file pointer, every other
slot free. -/
def tblC5 : List FileCtx :=
  { file := some 7, inUse := true } :: List.replicate 99 { file := none, inUse := false }

/-- C5: the lookup behaves as claimed for ids in [1, 100] and for ids above
100, but for id 0 (and any id below) the single bound check file_id - 1 <
100 is a signed comparison that passes, so the code reads the table entry at
index -1: an out-of-bounds access (the crash outcome none), contradicting
the claim that no entry outside the 100-slot array is accessed. -/
theorem C5_get_file_out_of_bounds_for_id_zero :
    get_file_from_id tblC5 0 = none ∧
    get_file_from_id tblC5 (-5) = none ∧
    get_file_from_id tblC5 1 = some (some 7) ∧
    get_file_from_id tblC5 2 = some none ∧
    get_file_from_id tblC5 100 = some none ∧
    get_file_from_id tblC5 101 = some none := by decide

/-- C6 (counterexample): a PUSH whose payload follows the header directly is
never completed (the payload read scans for a fresh marker and consumes the
payload bytes doing so), while the same message with a second marker between
header and payload succeeds: payload bytes are not read back-to-back after
the initial synchronization. -/
theorem C6_payload_read_requires_its_own_marker :
    mbedtls_serialize_pull envA st0
        [0x7b, 0x7b, MBEDTLS_SERIALIZE_TYPE_PUSH, 0, 0, 2, 65, 66] = PullOut.stuck ∧
    mbedtls_serialize_pull envA st0
        [0x7b, 0x7b, MBEDTLS_SERIALIZE_TYPE_PUSH, 0, 0, 2, 0x7b, 0x7b, 65, 66] =
      PullOut.done 0 { st0 with stack := [[65, 66]] } [] [] := ⟨by decide, by decide⟩

/-- C6 (amended): every channel read, the payload read of a PUSH included,
first consumes bytes until two consecutive left-brace bytes: a marker before
the payload is consumed and the payload is then read exactly. -/
theorem C6_sync_before_every_read (p rest : List Nat) (h : p.length < 2 ^ 24) :
    mbedtls_serialize_pull envA st0
        (0x7b :: 0x7b :: MBEDTLS_SERIALIZE_TYPE_PUSH ::
          (p.length / 65536 % 256) :: (p.length / 256 % 256) :: (p.length % 256) ::
          (0x7b :: 0x7b :: (p ++ rest))) =
      PullOut.done 0 { st0 with stack := [p] } rest [] := by
  have hdec : p.length / 65536 % 256 * 65536 + p.length / 256 % 256 * 256 + p.length % 256
      = p.length := by omega
  simp [mbedtls_serialize_pull, read_header, MBEDTLS_SERIALIZE_TYPE_PUSH, hdec,
    read_payload, st0, envA]

/-- C6 (witness): the amended theorem at a concrete two-byte payload. -/
theorem C6_sync_before_every_read_witness :
    mbedtls_serialize_pull envA st0
        (0x7b :: 0x7b :: MBEDTLS_SERIALIZE_TYPE_PUSH :: 0 :: 0 :: 2 ::
          (0x7b :: 0x7b :: ([65, 66] ++ [9]))) =
      PullOut.done 0 { st0 with stack := [[65, 66]] } [9] [] :=
  C6_sync_before_every_read [65, 66] [9] (by decide)

/-- C7: for an EXECUTE whose reply transmission completes (all outputs
within the length limit, every write accepted), the host sends exactly
1 + N RESULT frames, the status frame first followed by the dispatcher's
outputs in order, and a nonzero dispatcher status forces N = 0. -/
theorem C7_execute_reply_frames (env : Env) (st : PState) (b1 b2 b3 : Nat) (rest : List Nat)
    (stU : Nat) (outs : List Item) (st' : PState)
    (hok : st.status = SStatus.ok)
    (hperf : mbedtls_serialize_perform env st (b1 * 65536 + b2 * 256 + b3) =
      some (stU, outs, st'))
    (hne : ¬ stU = 3)
    (hsz : ∀ it ∈ outs, it.length ≤ MBEDTLS_SERIALIZE_MAX_STRING_LENGTH)
    (hsend : ∀ n, env.sendOk n = true) :
    mbedtls_serialize_pull env st
        (0x7b :: 0x7b :: MBEDTLS_SERIALIZE_TYPE_EXECUTE :: b1 :: b2 :: b3 :: rest) =
      PullOut.done 0 st' rest (u32be stU :: outs) ∧
    (u32be stU :: outs).length = 1 + outs.length ∧
    (stU ≠ 0 → outs = []) := by
  have hall : ∀ it ∈ u32be stU :: outs, it.length ≤ MBEDTLS_SERIALIZE_MAX_STRING_LENGTH := by
    intro it hit
    rcases List.mem_cons.mp hit with hh | hh
    · rw [hh]; simp [u32be, MBEDTLS_SERIALIZE_MAX_STRING_LENGTH]
    · exact hsz it hh
  have hloop := sendLoop_all_ok env hsend 0 (u32be stU :: outs) hall
  refine ⟨?_, by simp [Nat.add_comm], ?_⟩
  · rw [pull_execute_step env st b1 b2 b3 rest stU outs st' hok hperf hne, hloop]
    rfl
  · intro h0
    unfold mbedtls_serialize_perform at hperf
    cases hb : performBody env st (b1 * 65536 + b2 * 256 + b3) with
    | none => rw [hb] at hperf; simp at hperf
    | some pb =>
      rw [hb] at hperf
      simp only [Option.map_some', Option.some.injEq, Prod.mk.injEq] at hperf
      obtain ⟨h1, h2, -⟩ := hperf
      by_cases hz : pb.ret = 0
      · exact absurd (by rw [← h1, hz]; rfl) h0
      · rw [← h2]; simp [hz]

/-- C7 (witness): the theorem at a concrete ECHO with one output. -/
theorem C7_execute_reply_frames_witness :
    (mbedtls_serialize_pull envA { st0 with stack := [[1, 2, 3]] }
        (0x7b :: 0x7b :: MBEDTLS_SERIALIZE_TYPE_EXECUTE :: 0 :: 1 :: 0x11 :: []) =
      PullOut.done 0 st0 [] (u32be 0 :: [[1, 2, 3]]) ∧
    (u32be 0 :: [[1, 2, 3]]).length = 1 + ([[1, 2, 3]] : List Item).length ∧
    ((0 : Nat) ≠ 0 → ([[1, 2, 3]] : List Item) = [])) :=
  C7_execute_reply_frames envA { st0 with stack := [[1, 2, 3]] } 0 1 0x11 [] 0 [[1, 2, 3]] st0
    rfl (by decide) (by decide) (by decide) (fun _ => rfl)

/-- An output item one byte longer than the transmission limit. -/
def bigItem : Item := List.replicate (MBEDTLS_SERIALIZE_MAX_STRING_LENGTH + 1) 7

/-- C8 (counterexample): echoing an item longer than the limit: the oversized
frame is refused before any of its bytes are written (only the status frame
is on the wire), but no error status reaches the target, which already
received the success status, and the channel status becomes DEAD, not OK:
the channel does not continue operating. -/
theorem C8_oversize_output_kills_channel :
    mbedtls_serialize_pull envA { st0 with stack := [bigItem] }
        (0x7b :: 0x7b :: MBEDTLS_SERIALIZE_TYPE_EXECUTE :: 0 :: 1 :: 0x11 :: []) =
      PullOut.done MBEDTLS_ERR_SERIALIZE_UNSUPPORTED_OUTPUT
        { st0 with status := SStatus.dead } [] [u32be 0] ∧
    SStatus.dead ≠ SStatus.ok := by
  constructor
  · have hbig : MBEDTLS_SERIALIZE_MAX_STRING_LENGTH < bigItem.length := by
      unfold bigItem
      rw [List.length_replicate]
      omega
    rw [pull_execute_step envA { st0 with stack := [bigItem] } 0 1 0x11 [] 0 [bigItem] st0
      rfl (perform_echo bigItem) (by decide),
      sendLoop_second_oversize envA (u32be 0) bigItem (by decide) rfl hbig]
    rfl
  · decide

/-- C8 (amended): an output item longer than MAX_STRING_LENGTH is refused
with UNSUPPORTED_OUTPUT before any byte of that frame is transmitted, but
the refusal is handled like a send failure: the loop stops and the channel
is marked dead, so the error is never reported to the target. -/
theorem C8_oversize_refused_before_any_write (env : Env) (k : Nat) (it : Item)
    (rest : List Item) (h : MBEDTLS_SERIALIZE_MAX_STRING_LENGTH < it.length) :
    sendLoop env k (it :: rest) = ([], MBEDTLS_ERR_SERIALIZE_UNSUPPORTED_OUTPUT, true) := by
  simp [sendLoop, h]

/-- C8 (witness): the amended theorem at a concrete oversized item. -/
theorem C8_oversize_refused_before_any_write_witness :
    sendLoop envA 0 [bigItem] = ([], MBEDTLS_ERR_SERIALIZE_UNSUPPORTED_OUTPUT, true) :=
  C8_oversize_refused_before_any_write envA 0 bigItem []
    (by unfold bigItem; rw [List.length_replicate]; omega)

/-- C9: echoing any byte string b within the length limit, with memory
available and the channel writes succeeding, yields a success status frame
followed by exactly one data frame equal to b, and returns the channel to
the initial state. -/
theorem C9_echo_roundtrip (b rest : List Nat)
    (hlen : b.length ≤ MBEDTLS_SERIALIZE_MAX_STRING_LENGTH) :
    mbedtls_serialize_pull envA { st0 with stack := [b] }
        (0x7b :: 0x7b :: MBEDTLS_SERIALIZE_TYPE_EXECUTE :: 0 :: 1 :: 0x11 :: rest) =
      PullOut.done 0 st0 rest [u32be 0, b] := by
  have hperf := perform_echo b
  have hall : ∀ it ∈ [u32be 0, b], it.length ≤ MBEDTLS_SERIALIZE_MAX_STRING_LENGTH := by
    intro it hit
    rcases List.mem_cons.mp hit with hh | hh
    · rw [hh]; simp [u32be, MBEDTLS_SERIALIZE_MAX_STRING_LENGTH]
    · simp at hh; rw [hh]; exact hlen
  have hloop := sendLoop_all_ok envA (fun _ => rfl) 0 [u32be 0, b] hall
  rw [pull_execute_step envA { st0 with stack := [b] } 0 1 0x11 rest 0 [b] st0
    rfl hperf (by decide), hloop]
  rfl

/-- C9 (witness): the spec's echo scenario, the five bytes of Hello. -/
theorem C9_echo_roundtrip_witness :
    mbedtls_serialize_pull envA { st0 with stack := [[72, 101, 108, 108, 111]] }
        (0x7b :: 0x7b :: MBEDTLS_SERIALIZE_TYPE_EXECUTE :: 0 :: 1 :: 0x11 :: []) =
      PullOut.done 0 st0 [] [u32be 0, [72, 101, 108, 108, 111]] :=
  C9_echo_roundtrip [72, 101, 108, 108, 111] [] (by decide)

/-- C10: the exact-length read loop with a read oracle that always returns
zero (end-of-stream) and a positive remaining count never terminates, for
any iteration bound, and in particular never produces the RECEIVE error
that would mark the channel dead: only negative returns are fatal. -/
theorem C10_zero_reads_never_terminate (remaining : Nat) (h : 0 < remaining) :
    ∀ (fuel k : Nat), readLoopModel (fun _ => 0) k remaining fuel = none := by
  intro fuel
  induction fuel with
  | zero => intro _; rfl
  | succ n ih =>
    intro k
    simp only [readLoopModel]
    norm_num
    simpa [h] using ih (k + 1)

/-- C10 (witness): the theorem at remaining 4 with fuel 9. -/
theorem C10_zero_reads_never_terminate_witness :
    0 < 4 ∧ readLoopModel (fun _ => 0) 0 4 9 = none :=
  ⟨by decide, C10_zero_reads_never_terminate 4 (by decide) 9 0⟩

end Frontend
